import Mathlib

/-!
# Shallow embedding of the `clefa-media/avr-libs` LCD driver

This file embeds the HD44780-over-I2C display driver of
`src/I2C_LCD/src/I2C_LCD.c` (together with the constants of
`src/I2C_LCD/I2C_LCD.h` and the transport contract of `src/I2C/src/I2C.h`)
and proves the specification claims about it.

Modelling conventions:

* All C `uint8_t` values are `Nat`s; a `uint8_t` function parameter is
  reduced with `u8` (`% 256`) on entry, which is exactly the C conversion.
* The file-scope globals (`backlight`, `numlines`, `numcols`,
  `displayfunction`, `displaycontrol`, `displaymode`, `row_offsets[4]`)
  become the fields of `LCDState`; a driver function that mutates them
  returns the updated state.
* Every interaction with the bus or the timing primitive becomes one
  `BusEv` event; a driver function returns the list of events it performs,
  in order.  `I2C_write`'s and `I2C_startWait`'s `uint8_t` results are
  discarded by the C driver (every call is an expression statement), so the
  events record only the transmitted data.
* C promotes `uint8_t` operands to `int` before arithmetic; where the
  driver relies on that (the `col-1`/`row-1` computation of
  `I2C_LCD_setCursorWOI2C`) the model computes in `Int`.
-/

/-- `uint8_t` truncation: conversion of a C integer value to `uint8_t`. -/
def u8 (n : Nat) : Nat := n % 256

/-- 8-bit complement: what `x & ~m` does to a `uint8_t` `x` when `m < 256`
(the promoted-`int` complement keeps all bits above bit 7 set, and `x` has
none of them). -/
def compl8 (m : Nat) : Nat := 0xFF ^^^ m

/- Constants from `src/I2C/src/I2C.h`. -/

/-- `#define I2C_WRITE 0` (data-direction flag for writing). -/
def I2C_WRITE : Nat := 0

/- Constants from `src/I2C_LCD/I2C_LCD.h`. -/

/-- `#define I2C_LCD_ADDRESS 0x4E` — full 8-bit address of the I2C module. -/
def I2C_LCD_ADDRESS : Nat := 0x4E

/-- The address byte the driver passes to `I2C_startWait`:
`I2C_LCD_ADDRESS & ~I2C_WRITE`.  Since `I2C_WRITE` is `0`, the promoted
`~I2C_WRITE` has every bit set and the `&` is the identity, so this is
`0x4E`. -/
def I2C_LCD_startAddress : Nat := I2C_LCD_ADDRESS

def I2C_LCD_RS : Nat := 0x01
def I2C_LCD_RW : Nat := 0x02
def I2C_LCD_E : Nat := 0x04
def I2C_LCD_BL : Nat := 0x08

def I2C_LCD_CLEARDISPLAY : Nat := 0x01
def I2C_LCD_RETURNHOME : Nat := 0x02
def I2C_LCD_ENTRYMODESET : Nat := 0x04
def I2C_LCD_DISPLAYCONTROL : Nat := 0x08
def I2C_LCD_CURSORSHIFT : Nat := 0x10
def I2C_LCD_FUNCTIONSET : Nat := 0x20
def I2C_LCD_SETCGRAMADDR : Nat := 0x40
def I2C_LCD_SETDDRAMADDR : Nat := 0x80

def I2C_LCD_ENTRYRIGHT : Nat := 0x00
def I2C_LCD_ENTRYLEFT : Nat := 0x02
def I2C_LCD_ENTRYSHIFTINCREMENT : Nat := 0x01
def I2C_LCD_ENTRYSHIFTDECREMENT : Nat := 0x00

def I2C_LCD_DISPLAY : Nat := 0x04
def I2C_LCD_CURSOR : Nat := 0x02
def I2C_LCD_BLINK : Nat := 0x01

def I2C_LCD_DISPLAYMOVE : Nat := 0x08
def I2C_LCD_MOVERIGHT : Nat := 0x04
def I2C_LCD_MOVELEFT : Nat := 0x00

def I2C_LCD_8BITMODE : Nat := 0x10
def I2C_LCD_4BITMODE : Nat := 0x00
def I2C_LCD_2LINE : Nat := 0x08
def I2C_LCD_1LINE : Nat := 0x00

def I2C_LCD_ON : Nat := 0xFF
def I2C_LCD_OFF : Nat := 0x00

/-- One observable interaction of the driver with the bus transport
(`I2C.h`) or the timing primitive (`util/delay.h`), in program order.
The `uint8_t` success results of `I2C_startWait` and `I2C_write` are
discarded by the driver (each call is a bare expression statement in
`I2C_LCD.c`), so the events carry only the transmitted data. -/
inductive BusEv where
  /-- `I2C_startWait(addr)` — blocking start, result discarded. -/
  | startWait (addr : Nat)
  /-- `I2C_write(data)` — one byte offered to the bus, result discarded. -/
  | write (data : Nat)
  /-- `I2C_stop()`. -/
  | stop
  /-- `_delay_us(us)`. -/
  | delayUs (us : Nat)
  /-- `_delay_ms(ms)`. -/
  | delayMs (ms : Nat)
deriving DecidableEq

/-- The driver's file-scope globals from `I2C_LCD.h` (lines 252-265):
`backlight`, `numlines`, `numcols`, `displayfunction`, `displaycontrol`,
`displaymode` and the four entries of `row_offsets[4]`. -/
structure LCDState where
  backlight : Nat
  numlines : Nat
  numcols : Nat
  displayfunction : Nat
  displaycontrol : Nat
  displaymode : Nat
  row_offsets0 : Nat
  row_offsets1 : Nat
  row_offsets2 : Nat
  row_offsets3 : Nat
deriving DecidableEq

/-- All globals are `uint8_t`, hence below 256. -/
def LCDState.wf (s : LCDState) : Prop :=
  s.backlight < 256 ∧ s.numlines < 256 ∧ s.numcols < 256 ∧
  s.displayfunction < 256 ∧ s.displaycontrol < 256 ∧ s.displaymode < 256 ∧
  s.row_offsets0 < 256 ∧ s.row_offsets1 < 256 ∧ s.row_offsets2 < 256 ∧
  s.row_offsets3 < 256

instance (s : LCDState) : Decidable s.wf := by
  unfold LCDState.wf; infer_instance

/-- The C startup state: file-scope `uint8_t` globals are zero-initialized. -/
def LCDState.startup : LCDState := ⟨0, 0, 0, 0, 0, 0, 0, 0, 0, 0⟩

/-- `row_offsets[i]` for an `int` index `i`.  Only `0 ≤ i ≤ 3` is a defined
access in C; the model returns `0` elsewhere, and no claim about in-bounds
behaviour relies on that default. -/
def rowOffsetAt (s : LCDState) (i : Int) : Nat :=
  if i = 0 then s.row_offsets0
  else if i = 1 then s.row_offsets1
  else if i = 2 then s.row_offsets2
  else if i = 3 then s.row_offsets3
  else 0

/-- `I2C_LCD_push` (I2C_LCD.c lines 22-29): strobe one expander byte.
```c
I2C_write((i2c_data & ~I2C_LCD_BL) | I2C_LCD_E | (backlight? I2C_LCD_BL:0x00));
I2C_write((i2c_data & ~I2C_LCD_BL & ~I2C_LCD_E) | (backlight? I2C_LCD_BL:0x00));
_delay_us(100);
``` -/
def I2C_LCD_push (s : LCDState) (i2c_data : Nat) : List BusEv :=
  let i2c_data := u8 i2c_data
  [BusEv.write ((i2c_data &&& compl8 I2C_LCD_BL) ||| I2C_LCD_E |||
      (if s.backlight ≠ 0 then I2C_LCD_BL else 0x00)),
   BusEv.write ((i2c_data &&& compl8 I2C_LCD_BL &&& compl8 I2C_LCD_E) |||
      (if s.backlight ≠ 0 then I2C_LCD_BL else 0x00)),
   BusEv.delayUs 100]

/-- `I2C_LCD_command4bit` (lines 31-35): both nibbles of a command.
`command << 4` is truncated to `uint8_t` by `push`'s parameter. -/
def I2C_LCD_command4bit (s : LCDState) (command : Nat) : List BusEv :=
  let command := u8 command
  I2C_LCD_push s (command &&& 0xF0) ++ I2C_LCD_push s (command <<< 4)

/-- `I2C_LCD_command8bit` (lines 37-40): high nibble only. -/
def I2C_LCD_command8bit (s : LCDState) (command : Nat) : List BusEv :=
  let command := u8 command
  I2C_LCD_push s (command &&& 0xF0)

/-- `I2C_LCD_write` (lines 42-46): both nibbles of a data byte, RS set. -/
def I2C_LCD_write (s : LCDState) (c : Nat) : List BusEv :=
  let c := u8 c
  I2C_LCD_push s ((c &&& 0xF0) ||| I2C_LCD_RS) ++
  I2C_LCD_push s ((c <<< 4) ||| I2C_LCD_RS)

/-- `I2C_LCD_setRowOffsets` (lines 109-115). -/
def I2C_LCD_setRowOffsets (s : LCDState) (row1 row2 row3 row4 : Nat) : LCDState :=
  { s with
    row_offsets0 := u8 row1
    row_offsets1 := u8 row2
    row_offsets2 := u8 row3
    row_offsets3 := u8 row4 }

/-- `I2C_LCD_init` (lines 48-89), step by step:
set `backlight`, wait 40 ms, `I2C_startWait`, three 8-bit-mode
function-sets with 4500 µs and 150 µs waits between them, one 4-bit-mode
function-set, conditionally or `2LINE` into `displayfunction`, store
`numlines`/`numcols`, store the row offsets, then the function-set,
display-control, clear-display and entry-mode-set commands, and stop.
`push` only ever reads `backlight` from the globals, which is `0xFF` from
the first statement on, so each command's event list is computed in the
state current at that call. -/
def I2C_LCD_init (cols lines : Nat) (s : LCDState) : LCDState × List BusEv :=
  let cols := u8 cols
  let lines := u8 lines
  let s := { s with backlight := I2C_LCD_ON }
  let t0 : List BusEv := [BusEv.delayMs 40, BusEv.startWait I2C_LCD_startAddress]
  let t1 :=
    I2C_LCD_command8bit s (I2C_LCD_FUNCTIONSET ||| I2C_LCD_8BITMODE) ++
    [BusEv.delayUs 4500] ++
    I2C_LCD_command8bit s (I2C_LCD_FUNCTIONSET ||| I2C_LCD_8BITMODE) ++
    [BusEv.delayUs 150] ++
    I2C_LCD_command8bit s (I2C_LCD_FUNCTIONSET ||| I2C_LCD_8BITMODE) ++
    I2C_LCD_command8bit s (I2C_LCD_FUNCTIONSET ||| I2C_LCD_4BITMODE)
  let s := if lines > 1 then
      { s with displayfunction := s.displayfunction ||| I2C_LCD_2LINE }
    else s
  let s := { s with numlines := lines, numcols := cols }
  let s := I2C_LCD_setRowOffsets s 0x00 0x40 (0x00 + cols) (0x40 + cols)
  let t2 := I2C_LCD_command4bit s (I2C_LCD_FUNCTIONSET ||| s.displayfunction)
  let s := { s with displaycontrol := I2C_LCD_DISPLAY }
  let t3 := I2C_LCD_command4bit s (I2C_LCD_DISPLAYCONTROL ||| s.displaycontrol)
  let t4 := I2C_LCD_command4bit s I2C_LCD_CLEARDISPLAY
  let s := { s with displaymode := I2C_LCD_ENTRYLEFT ||| I2C_LCD_ENTRYSHIFTDECREMENT }
  let t5 := I2C_LCD_command4bit s (I2C_LCD_ENTRYMODESET ||| s.displaymode)
  (s, t0 ++ t1 ++ t2 ++ t3 ++ t4 ++ t5 ++ [BusEv.stop])

/-- The `for (uint8_t i = 0; c[i] != '\0'; ++i) I2C_LCD_write(c[i]);` loop
of `I2C_LCD_print`.  The C string is a byte list; `0` is the terminator
(a C string without one is undefined, so the model treats the list end
like a terminator).  The loop index `i` is a `uint8_t`; the recursion
walks the bytes from the current index on, and `steps` counts the index
values `i, i+1, …, 255` not yet used, starting from `256`.  When all 256
index values are exhausted without meeting a NUL, `++i` wraps the
`uint8_t` index back to `0` and the C loop re-reads the same 256 bytes
forever: the call never terminates and never reaches `I2C_stop`, which
the model renders as `none` (no terminating event list exists). -/
def I2C_LCD_printChars (s : LCDState) : List Nat → Nat → Option (List BusEv)
  | _, 0 => none
  | [], _ + 1 => some []
  | c :: rest, steps + 1 =>
    if c = 0 then some []
    else (I2C_LCD_printChars s rest steps).map (fun t => I2C_LCD_write s c ++ t)

/-- `I2C_LCD_print` (lines 91-100): `some` of the events of a terminating
call, `none` when the loop wraps its `uint8_t` index and never returns. -/
def I2C_LCD_print (s : LCDState) (c : List Nat) : Option (List BusEv) :=
  (I2C_LCD_printChars s c 256).map
    (fun w => [BusEv.startWait I2C_LCD_startAddress] ++ w ++ [BusEv.stop])

/-- `I2C_LCD_printChar` (lines 102-107). -/
def I2C_LCD_printChar (s : LCDState) (c : Nat) : List BusEv :=
  [BusEv.startWait I2C_LCD_startAddress] ++ I2C_LCD_write s c ++ [BusEv.stop]

/-- The clamped `col` of `I2C_LCD_setCursorWOI2C` (line 119):
`col = (col >= numcols) ? numcols : col`. -/
def clampedCursorCol (s : LCDState) (col : Nat) : Nat :=
  let col := u8 col
  if col ≥ s.numcols then s.numcols else col

/-- The clamped `row` of `I2C_LCD_setCursorWOI2C` (line 120):
`row = (row >= numlines) ? numlines : row`. -/
def clampedCursorRow (s : LCDState) (row : Nat) : Nat :=
  let row := u8 row
  if row ≥ s.numlines then s.numlines else row

/-- The `row_offsets` index `row - 1` of line 122, computed as C does:
the clamped `uint8_t` `row` is promoted to `int` before the subtraction,
so `row = 0` yields `-1` (not an 8-bit wrap-around). -/
def cursorRowIndex (s : LCDState) (row : Nat) : Int :=
  (clampedCursorRow s row : Int) - 1

/-- The `uint8_t` command byte `I2C_LCD_SETDDRAMADDR | ((col-1) + row_offsets[row-1])`
of line 122.  C computes `(col-1) + row_offsets[row-1]` in `int` (so
`col = 0` gives `-1`), ors `0x80` and truncates the result to `uint8_t`
at `command4bit`'s parameter.  Truncating after the `|` equals oring
`0x80` into the low byte of the sum: `0x80` lives in the low byte, and
the low byte of a two's-complement `int` is its value `emod 256`. -/
def cursorDDRAMAddr (s : LCDState) (col row : Nat) : Nat :=
  let sum : Int :=
    ((clampedCursorCol s col : Int) - 1) + (rowOffsetAt s (cursorRowIndex s row) : Int)
  I2C_LCD_SETDDRAMADDR ||| (sum % 256).toNat

/-- `I2C_LCD_setCursorWOI2C` (lines 117-123). -/
def I2C_LCD_setCursorWOI2C (s : LCDState) (col row : Nat) : List BusEv :=
  I2C_LCD_command4bit s (cursorDDRAMAddr s col row)

/-- `I2C_LCD_setCursor` (lines 125-130). -/
def I2C_LCD_setCursor (s : LCDState) (col row : Nat) : List BusEv :=
  [BusEv.startWait I2C_LCD_startAddress] ++ I2C_LCD_setCursorWOI2C s col row ++
  [BusEv.stop]

/-- `I2C_LCD_cursor` (lines 132-140). -/
def I2C_LCD_cursor (s : LCDState) (state : Nat) : LCDState × List BusEv :=
  let state := u8 state
  let dc := s.displaycontrol &&& compl8 I2C_LCD_CURSOR
  let dc := dc ||| (if state ≠ 0 then I2C_LCD_CURSOR else 0)
  let s := { s with displaycontrol := dc }
  (s, [BusEv.startWait I2C_LCD_startAddress] ++
      I2C_LCD_command4bit s (I2C_LCD_DISPLAYCONTROL ||| s.displaycontrol) ++
      [BusEv.stop])

/-- `I2C_LCD_blink` (lines 142-150). -/
def I2C_LCD_blink (s : LCDState) (state : Nat) : LCDState × List BusEv :=
  let state := u8 state
  let dc := s.displaycontrol &&& compl8 I2C_LCD_BLINK
  let dc := dc ||| (if state ≠ 0 then I2C_LCD_BLINK else 0)
  let s := { s with displaycontrol := dc }
  (s, [BusEv.startWait I2C_LCD_startAddress] ++
      I2C_LCD_command4bit s (I2C_LCD_DISPLAYCONTROL ||| s.displaycontrol) ++
      [BusEv.stop])

/-- `I2C_LCD_display` (lines 152-160). -/
def I2C_LCD_display (s : LCDState) (state : Nat) : LCDState × List BusEv :=
  let state := u8 state
  let dc := s.displaycontrol &&& compl8 I2C_LCD_DISPLAY
  let dc := dc ||| (if state ≠ 0 then I2C_LCD_DISPLAY else 0)
  let s := { s with displaycontrol := dc }
  (s, [BusEv.startWait I2C_LCD_startAddress] ++
      I2C_LCD_command4bit s (I2C_LCD_DISPLAYCONTROL ||| s.displaycontrol) ++
      [BusEv.stop])

/-- `I2C_LCD_backlight` (lines 162-169): store `state`, then resend the
unchanged `displaycontrol` byte inside a `startWait`/`stop` bracket. -/
def I2C_LCD_backlight (s : LCDState) (state : Nat) : LCDState × List BusEv :=
  let state := u8 state
  let s := { s with backlight := state }
  (s, [BusEv.startWait I2C_LCD_startAddress] ++
      I2C_LCD_command4bit s (I2C_LCD_DISPLAYCONTROL ||| s.displaycontrol) ++
      [BusEv.stop])

/-- `I2C_LCD_home` (lines 171-173). -/
def I2C_LCD_home (s : LCDState) : List BusEv :=
  I2C_LCD_setCursor s 1 1

/-- `I2C_LCD_clear` (lines 175-179). -/
def I2C_LCD_clear (s : LCDState) : List BusEv :=
  [BusEv.startWait I2C_LCD_startAddress] ++
  I2C_LCD_command4bit s I2C_LCD_CLEARDISPLAY ++ [BusEv.stop]

/-- `I2C_LCD_scrollDisplayLeft` (lines 182-186). -/
def I2C_LCD_scrollDisplayLeft (s : LCDState) : List BusEv :=
  [BusEv.startWait I2C_LCD_startAddress] ++
  I2C_LCD_command4bit s (I2C_LCD_CURSORSHIFT ||| I2C_LCD_DISPLAYMOVE ||| I2C_LCD_MOVELEFT) ++
  [BusEv.stop]

/-- `I2C_LCD_scrollDisplayRight` (lines 188-192). -/
def I2C_LCD_scrollDisplayRight (s : LCDState) : List BusEv :=
  [BusEv.startWait I2C_LCD_startAddress] ++
  I2C_LCD_command4bit s (I2C_LCD_CURSORSHIFT ||| I2C_LCD_DISPLAYMOVE ||| I2C_LCD_MOVERIGHT) ++
  [BusEv.stop]

/-- `I2C_LCD_leftToRight` (lines 195-201). -/
def I2C_LCD_leftToRight (s : LCDState) : LCDState × List BusEv :=
  let s := { s with displaymode := s.displaymode ||| I2C_LCD_ENTRYLEFT }
  (s, [BusEv.startWait I2C_LCD_startAddress] ++
      I2C_LCD_command4bit s (I2C_LCD_ENTRYMODESET ||| s.displaymode) ++
      [BusEv.stop])

/-- `I2C_LCD_rightToLeft` (lines 204-210). -/
def I2C_LCD_rightToLeft (s : LCDState) : LCDState × List BusEv :=
  let s := { s with displaymode := s.displaymode &&& compl8 I2C_LCD_ENTRYLEFT }
  (s, [BusEv.startWait I2C_LCD_startAddress] ++
      I2C_LCD_command4bit s (I2C_LCD_ENTRYMODESET ||| s.displaymode) ++
      [BusEv.stop])

/-- `I2C_LCD_cursorFixPosition` (lines 212-219). -/
def I2C_LCD_cursorFixPosition (s : LCDState) (state : Nat) : LCDState × List BusEv :=
  let state := u8 state
  let dm := s.displaymode &&& compl8 I2C_LCD_ENTRYSHIFTINCREMENT
  let dm := dm ||| (if state ≠ 0 then I2C_LCD_ENTRYSHIFTINCREMENT else 0)
  let s := { s with displaymode := dm }
  (s, [BusEv.startWait I2C_LCD_startAddress] ++
      I2C_LCD_command4bit s (I2C_LCD_ENTRYMODESET ||| s.displaymode) ++
      [BusEv.stop])

/-- `I2C_LCD_createChar` (lines 223-231).  `charmap` is the C array
argument, read at indices 0 to 7; `List.range 8` is the
`for (uint8_t i = 0; i < 8; i++)` loop. -/
def I2C_LCD_createChar (s : LCDState) (location : Nat) (charmap : Nat → Nat) :
    List BusEv :=
  let location := u8 location
  let location := location &&& 0x7
  [BusEv.startWait I2C_LCD_startAddress] ++
  I2C_LCD_command4bit s (I2C_LCD_SETCGRAMADDR ||| (location <<< 3)) ++
  (List.range 8).flatMap (fun i => I2C_LCD_write s (charmap i &&& 0x1F)) ++
  [BusEv.stop]

/-- The public operations of the display driver, with their arguments. -/
inductive LCDOp where
  | opInit (cols lines : Nat)
  | opPrint (c : List Nat)
  | opPrintChar (c : Nat)
  | opSetCursor (col row : Nat)
  | opSetCursorWOI2C (col row : Nat)
  | opCursor (state : Nat)
  | opBlink (state : Nat)
  | opDisplay (state : Nat)
  | opBacklight (state : Nat)
  | opHome
  | opClear
  | opScrollDisplayLeft
  | opScrollDisplayRight
  | opLeftToRight
  | opRightToLeft
  | opCursorFixPosition (state : Nat)
  | opCreateChar (location : Nat) (charmap : Nat → Nat)

/-- Run one public operation.  `acks` is the sequence of success/failure
statuses the bus transport would return from the `I2C_write` calls of the
operation.  In `I2C_LCD.c` every `I2C_write(...)` (and every inner
`I2C_startWait(...)`) is a bare expression statement whose `uint8_t`
result is discarded, so neither the produced events nor the updated
globals depend on `acks`.  The event list is `some` of the events of a
terminating call; it is `none` exactly when the call never returns
(`print` on a string whose first NUL lies beyond the wrapping `uint8_t`
loop index), and that too is independent of `acks`. -/
def runLCDOp (op : LCDOp) (acks : List Bool) (s : LCDState) :
    LCDState × Option (List BusEv) :=
  match op with
  | .opInit cols lines => ((I2C_LCD_init cols lines s).1, some (I2C_LCD_init cols lines s).2)
  | .opPrint c => (s, I2C_LCD_print s c)
  | .opPrintChar c => (s, some (I2C_LCD_printChar s c))
  | .opSetCursor col row => (s, some (I2C_LCD_setCursor s col row))
  | .opSetCursorWOI2C col row => (s, some (I2C_LCD_setCursorWOI2C s col row))
  | .opCursor state => ((I2C_LCD_cursor s state).1, some (I2C_LCD_cursor s state).2)
  | .opBlink state => ((I2C_LCD_blink s state).1, some (I2C_LCD_blink s state).2)
  | .opDisplay state => ((I2C_LCD_display s state).1, some (I2C_LCD_display s state).2)
  | .opBacklight state => ((I2C_LCD_backlight s state).1, some (I2C_LCD_backlight s state).2)
  | .opHome => (s, some (I2C_LCD_home s))
  | .opClear => (s, some (I2C_LCD_clear s))
  | .opScrollDisplayLeft => (s, some (I2C_LCD_scrollDisplayLeft s))
  | .opScrollDisplayRight => (s, some (I2C_LCD_scrollDisplayRight s))
  | .opLeftToRight => ((I2C_LCD_leftToRight s).1, some (I2C_LCD_leftToRight s).2)
  | .opRightToLeft => ((I2C_LCD_rightToLeft s).1, some (I2C_LCD_rightToLeft s).2)
  | .opCursorFixPosition state =>
    ((I2C_LCD_cursorFixPosition s state).1, some (I2C_LCD_cursorFixPosition s state).2)
  | .opCreateChar location charmap => (s, some (I2C_LCD_createChar s location charmap))

/-- Modelled from the spec: the body of `I2C_startWait` is not among the
sources (only its declaration in `src/I2C/src/I2C.h`, documented as
"function to start a communication with a loop to wait until the bus is
free", and §4.1/§7 of the spec: it "retries the start condition ... until
the addressed device acknowledges").  Given the device's successive
acknowledge answers, this returns how many start attempts the loop makes:
one more than the failures preceding the first acknowledge, and `none`
when the device never acknowledges (the loop does not terminate). -/
def I2C_startWait_attempts : List Bool → Option Nat
  | [] => none
  | ack :: rest =>
    if ack then some 1 else (I2C_startWait_attempts rest).map (· + 1)

/-! ## Helper lemmas -/

/-- Oring a bit pattern disjoint from a mask does not disturb the masked part. -/
theorem masked_or_stable (x b m : Nat) (hb : b &&& m = 0) :
    ((x &&& m) ||| b) &&& m = x &&& m := by
  apply Nat.eq_of_testBit_eq
  intro i
  have h := congrArg (fun n => Nat.testBit n i) hb
  simp only [Nat.testBit_and, Nat.zero_testBit] at h
  simp only [Nat.testBit_and, Nat.testBit_or]
  cases hx : x.testBit i <;> cases hm : m.testBit i <;> simp_all

/-- The clear-bit/set-bit/resend pattern of the attribute toggles is stable:
applying it a second time to its own output changes nothing. -/
theorem masked_or_idem (x b m : Nat) (hb : b &&& m = 0) :
    ((((x &&& m) ||| b) &&& m) ||| b) = (x &&& m) ||| b := by
  rw [masked_or_stable x b m hb]

/-- `uint8_t` truncation commutes with bitwise or. -/
theorem or_mod_256 (a b : Nat) : (a ||| b) % 256 = (a % 256) ||| (b % 256) := by
  have h256 : (256 : Nat) = 2 ^ 8 := by norm_num
  rw [h256]
  apply Nat.eq_of_testBit_eq
  intro i
  simp only [Nat.testBit_mod_two_pow, Nat.testBit_or, Bool.and_or_distrib_left]

/-- `push` truncates its argument itself, so pre-truncating changes nothing. -/
theorem push_mod (s : LCDState) (x : Nat) :
    I2C_LCD_push s (x % 256) = I2C_LCD_push s x := by
  simp [I2C_LCD_push, u8, Nat.mod_mod_of_dvd]

/-- `command4bit` truncates its argument itself, so pre-truncating changes nothing. -/
theorem command4bit_mod (s : LCDState) (x : Nat) :
    I2C_LCD_command4bit s (x % 256) = I2C_LCD_command4bit s x := by
  simp [I2C_LCD_command4bit, u8, Nat.mod_mod_of_dvd]

/-! ## Claim theorems -/

set_option maxRecDepth 16384 in
/-- **C2.** For every byte `b` and every value of the stored backlight flag,
`push(b)` issues exactly two bus byte writes followed by the 100 µs settle
delay: the first is `b` with the backlight bit `0x08` replaced by the
stored backlight flag and the enable bit `0x04` set, the second is the
same byte with the enable bit cleared; the backlight bit equals the stored
flag in both writes and the data/RS/RW bits (`0xF3`) of `b` are carried
through unchanged in both writes. -/
theorem claim_C2_push (s : LCDState) (b : Nat) (hb : b < 256) :
    ∃ w1 w2,
      I2C_LCD_push s b = [BusEv.write w1, BusEv.write w2, BusEv.delayUs 100] ∧
      w1 &&& I2C_LCD_E = I2C_LCD_E ∧
      w2 &&& I2C_LCD_E = 0 ∧
      w1 &&& I2C_LCD_BL = (if s.backlight ≠ 0 then I2C_LCD_BL else 0) ∧
      w2 &&& I2C_LCD_BL = (if s.backlight ≠ 0 then I2C_LCD_BL else 0) ∧
      w1 &&& 0xF3 = b &&& 0xF3 ∧
      w2 &&& 0xF3 = b &&& 0xF3 ∧
      w2 = w1 &&& compl8 I2C_LCD_E := by
  have hb8 : u8 b = b := Nat.mod_eq_of_lt hb
  refine ⟨(u8 b &&& compl8 I2C_LCD_BL) ||| I2C_LCD_E |||
            (if s.backlight ≠ 0 then I2C_LCD_BL else 0x00),
          (u8 b &&& compl8 I2C_LCD_BL &&& compl8 I2C_LCD_E) |||
            (if s.backlight ≠ 0 then I2C_LCD_BL else 0x00),
          rfl, ?_⟩
  rw [hb8]
  clear hb8
  rcases em (s.backlight ≠ 0) with hbl | hbl
  · simp only [if_pos hbl, compl8, I2C_LCD_BL, I2C_LCD_E]
    revert b
    decide
  · simp only [if_neg hbl, compl8, I2C_LCD_BL, I2C_LCD_E]
    revert b
    decide

/-- **C4.** For every byte `c`, `command4bit(c)` performs exactly two `push`
calls, the first with payload `c & 0xF0` and the second with payload
`(c << 4) mod 256`; in particular `command4bit(0xAB)` pushes `0xA0` then
`0xB0`. -/
theorem claim_C4_command4bit (s : LCDState) (c : Nat) (hc : c < 256) :
    I2C_LCD_command4bit s c =
      I2C_LCD_push s (c &&& 0xF0) ++ I2C_LCD_push s ((c <<< 4) % 256) ∧
    I2C_LCD_command4bit s 0xAB = I2C_LCD_push s 0xA0 ++ I2C_LCD_push s 0xB0 := by
  constructor
  · have hc8 : u8 c = c := Nat.mod_eq_of_lt hc
    simp only [I2C_LCD_command4bit, hc8, push_mod]
  · have h1 : u8 0xAB &&& 0xF0 = 0xA0 := by decide
    have h2 : (u8 0xAB) <<< 4 = 0xAB0 := by decide
    have h3 : I2C_LCD_push s 0xAB0 = I2C_LCD_push s 0xB0 := by
      rw [show (0xAB0 : Nat) = 0xB0 % 256 + 10 * 256 by norm_num]
      simp [I2C_LCD_push, u8, Nat.add_mul_mod_self_right]
    simp only [I2C_LCD_command4bit, h1, h2, h3]

/-- When some index below `steps` holds a NUL (the list end stands for
the NUL-filled remainder of memory), the print loop terminates on its
first pass and writes exactly the characters preceding the first NUL, in
order. -/
theorem printChars_eq (s : LCDState) (cs : List Nat) (steps : Nat)
    (h : ∃ j, j < steps ∧ cs.getD j 0 = 0) :
    I2C_LCD_printChars s cs steps =
      some ((cs.takeWhile (fun c => c ≠ 0)).flatMap (I2C_LCD_write s)) := by
  induction cs generalizing steps with
  | nil =>
    obtain ⟨j, hj, -⟩ := h
    cases steps with
    | zero => omega
    | succ n => rfl
  | cons c rest ih =>
    cases steps with
    | zero => obtain ⟨j, hj, -⟩ := h; omega
    | succ n =>
      by_cases hc : c = 0
      · simp [I2C_LCD_printChars, hc, List.takeWhile_cons]
      · obtain ⟨j, hj, hj0⟩ := h
        cases j with
        | zero =>
          rw [List.getD_cons_zero] at hj0
          exact absurd hj0 hc
        | succ j' =>
          rw [List.getD_cons_succ] at hj0
          have ih' := ih n ⟨j', by omega, hj0⟩
          simp [I2C_LCD_printChars, hc, List.takeWhile_cons, ih']

/-- **C5 (amended).** For every character array whose first NUL terminator
lies within the first 256 entries (the indices the `uint8_t` loop index
reaches before wrapping), `print` opens exactly one `startWait`
transaction, issues exactly one `write(c)` call per character preceding
the first NUL, in string order, then issues exactly one `stop` — the
entire string travels in one bus transaction — and for the terminator-only
string it opens and closes the transaction with zero `write` calls.
(When the first NUL lies at index 256 or beyond, the `uint8_t` loop index
wraps and `print` never terminates and never issues `stop`.) -/
theorem claim_C5_print (s : LCDState) (cs : List Nat)
    (h : ∃ j, j < 256 ∧ cs.getD j 0 = 0) :
    I2C_LCD_print s cs =
      some ([BusEv.startWait I2C_LCD_startAddress] ++
        (cs.takeWhile (fun c => c ≠ 0)).flatMap (I2C_LCD_write s) ++
        [BusEv.stop]) ∧
    I2C_LCD_print s [0] =
      some [BusEv.startWait I2C_LCD_startAddress, BusEv.stop] := by
  constructor
  · simp [I2C_LCD_print, printChars_eq s cs 256 h]
  · rfl

set_option maxRecDepth 16384 in
/-- **C5, counterexample to the claim as stated.**  For the array of 256
non-NUL bytes followed by the terminator, the first NUL lies at index
256, which the wrapping `uint8_t` loop index never reaches: the C loop
re-reads the first 256 bytes forever, so this `print` call never
terminates and never issues `stop` — no event list of the claimed shape
(the pre-NUL writes followed by one `stop`) is produced. -/
theorem claim_C5_counterexample :
    I2C_LCD_print LCDState.startup (List.replicate 256 1 ++ [0]) = none ∧
    I2C_LCD_print LCDState.startup (List.replicate 256 1 ++ [0]) ≠
      some ([BusEv.startWait I2C_LCD_startAddress] ++
        ((List.replicate 256 1 ++ [0]).takeWhile (fun c => c ≠ 0)).flatMap
          (I2C_LCD_write LCDState.startup) ++
        [BusEv.stop]) := by
  constructor
  · decide
  · decide

/-- **C6.** For every location byte and 8-entry bitmap, `createChar`
masks the location to its low 3 bits (so location 9 behaves exactly as
location 1), then inside one `startWait`/`stop` transaction sends the
single command `SETCGRAMADDR | (maskedLocation << 3)` followed by exactly
8 data writes, `write(bitmap[i] & 0x1F)` for `i = 0..7` in order. -/
theorem claim_C6_createChar (s : LCDState) (location : Nat)
    (charmap : Nat → Nat) (hloc : location < 256) :
    I2C_LCD_createChar s location charmap =
      [BusEv.startWait I2C_LCD_startAddress] ++
      I2C_LCD_command4bit s
        (I2C_LCD_SETCGRAMADDR ||| ((location &&& 0x7) <<< 3)) ++
      (I2C_LCD_write s (charmap 0 &&& 0x1F) ++
       I2C_LCD_write s (charmap 1 &&& 0x1F) ++
       I2C_LCD_write s (charmap 2 &&& 0x1F) ++
       I2C_LCD_write s (charmap 3 &&& 0x1F) ++
       I2C_LCD_write s (charmap 4 &&& 0x1F) ++
       I2C_LCD_write s (charmap 5 &&& 0x1F) ++
       I2C_LCD_write s (charmap 6 &&& 0x1F) ++
       I2C_LCD_write s (charmap 7 &&& 0x1F)) ++
      [BusEv.stop] ∧
    I2C_LCD_createChar s 9 charmap = I2C_LCD_createChar s 1 charmap := by
  constructor
  · have hloc8 : u8 location = location := Nat.mod_eq_of_lt hloc
    simp only [I2C_LCD_createChar, hloc8,
      show List.range 8 = [0, 1, 2, 3, 4, 5, 6, 7] from rfl, List.flatMap_cons,
      List.flatMap_nil, List.append_nil, List.append_assoc]
  · have h9 : u8 9 &&& 0x7 = u8 1 &&& 0x7 := by decide
    simp only [I2C_LCD_createChar, h9]

/-- **C8.** Every attribute toggle (`display`, `cursor`, `blink`,
`cursorFixPosition`) is idempotent under repeated identical calls: for
every state byte, calling the toggle a second time with the same argument
produces the same stored flags byte and re-sends the identical
display-control (or entry-mode) command byte — the whole result (updated
globals and event list) of the second call equals that of the first. -/
theorem claim_C8_toggle_idem (s : LCDState) (state : Nat) :
    I2C_LCD_cursor (I2C_LCD_cursor s state).1 state = I2C_LCD_cursor s state ∧
    I2C_LCD_blink (I2C_LCD_blink s state).1 state = I2C_LCD_blink s state ∧
    I2C_LCD_display (I2C_LCD_display s state).1 state = I2C_LCD_display s state ∧
    I2C_LCD_cursorFixPosition (I2C_LCD_cursorFixPosition s state).1 state =
      I2C_LCD_cursorFixPosition s state := by
  rcases em (u8 state ≠ 0) with hst | hst
  · refine ⟨?_, ?_, ?_, ?_⟩ <;>
      simp only [I2C_LCD_cursor, I2C_LCD_blink, I2C_LCD_display,
        I2C_LCD_cursorFixPosition, if_pos hst] <;>
      rw [masked_or_idem _ _ _ (by decide)]
  · refine ⟨?_, ?_, ?_, ?_⟩ <;>
      simp only [I2C_LCD_cursor, I2C_LCD_blink, I2C_LCD_display,
        I2C_LCD_cursorFixPosition, if_neg hst] <;>
      rw [masked_or_idem _ _ _ (by decide)]

/-- **C9.** For every state byte, `backlight(state)` stores `state` (as a
`uint8_t`) into the backlight flag and then, inside one `startWait`/`stop`
bracket, sends exactly one display-control command carrying the unchanged
`displaycontrol` byte; it modifies no other driver state: `displaycontrol`,
`displaymode`, `displayfunction`, `numlines`, `numcols` and all four row
offsets are the same after the call as before. -/
theorem claim_C9_backlight_frame (s : LCDState) (state : Nat) :
    (I2C_LCD_backlight s state).1.backlight = state % 256 ∧
    (I2C_LCD_backlight s state).1.displaycontrol = s.displaycontrol ∧
    (I2C_LCD_backlight s state).1.displaymode = s.displaymode ∧
    (I2C_LCD_backlight s state).1.displayfunction = s.displayfunction ∧
    (I2C_LCD_backlight s state).1.numlines = s.numlines ∧
    (I2C_LCD_backlight s state).1.numcols = s.numcols ∧
    (I2C_LCD_backlight s state).1.row_offsets0 = s.row_offsets0 ∧
    (I2C_LCD_backlight s state).1.row_offsets1 = s.row_offsets1 ∧
    (I2C_LCD_backlight s state).1.row_offsets2 = s.row_offsets2 ∧
    (I2C_LCD_backlight s state).1.row_offsets3 = s.row_offsets3 ∧
    (I2C_LCD_backlight s state).2 =
      [BusEv.startWait I2C_LCD_startAddress] ++
      I2C_LCD_command4bit (I2C_LCD_backlight s state).1
        (I2C_LCD_DISPLAYCONTROL ||| s.displaycontrol) ++
      [BusEv.stop] :=
  ⟨rfl, rfl, rfl, rfl, rfl, rfl, rfl, rfl, rfl, rfl, rfl⟩

/-- **C7.** For every public display operation, the event sequence offered
to the bus transport and the resulting driver state are independent of the
success/failure statuses the transport's `I2C_write` calls would return:
the driver discards every `I2C_write` return value (each call in
`I2C_LCD.c` is a bare expression statement), returns no error from any
operation (all driver functions are `void`), and never re-issues a write.
Only the opening `I2C_startWait` blocks: it retries the start condition
until the addressed device acknowledges, making one more attempt than the
number of failures preceding the first acknowledge. -/
theorem claim_C7_status_independent :
    (∀ (op : LCDOp) (acks acks' : List Bool) (s : LCDState),
        runLCDOp op acks s = runLCDOp op acks' s) ∧
    (∀ (k : Nat) (rest : List Bool),
        I2C_startWait_attempts (List.replicate k false ++ true :: rest) =
          some (k + 1)) := by
  constructor
  · intro op acks acks' s
    cases op <;> rfl
  · intro k rest
    induction k with
    | zero => rfl
    | succ n ih =>
      simp only [List.replicate_succ, List.cons_append, I2C_startWait_attempts,
        if_neg (Bool.false_ne_true), List.append_eq, ih]
      rfl

/-- The globals after `init(cols, lines)` from a pre-state whose
`displayfunction` is still zero (the C startup value — `init` only ever
ors bits into it): backlight on, the geometry stored, the two-line bit set
exactly when `lines > 1`, display-on control flags, left-entry /
shift-decrement mode, and the four DDRAM row offsets (stored as
`uint8_t`s). -/
def initFinalState (cols lines : Nat) : LCDState :=
  { backlight := I2C_LCD_ON
    numlines := lines
    numcols := cols
    displayfunction := if lines > 1 then I2C_LCD_2LINE else 0
    displaycontrol := I2C_LCD_DISPLAY
    displaymode := I2C_LCD_ENTRYLEFT ||| I2C_LCD_ENTRYSHIFTDECREMENT
    row_offsets0 := 0x00
    row_offsets1 := 0x40
    row_offsets2 := (0x00 + cols) % 256
    row_offsets3 := (0x40 + cols) % 256 }

/-- **C1.** For every `cols` and `lines` (from a pre-state whose
`displayfunction` byte is still the startup value 0), `init(cols, lines)`
executes exactly this sequence in order: set the stored backlight flag on;
wait the 40 ms power-on delay; open one blocking `startWait` transaction
to the display address; send the 8-bit-mode function-set high nibble three
times (with the 4.5 ms and 150 µs waits after the first and second sends
and none after the third); send one 4-bit-mode function-set nibble; set
the two-line bit in `displayfunction` if and only if `lines > 1`; store
`numlines = lines`, `numcols = cols` and the row offsets
`{0x00, 0x40, 0x00 + cols, 0x40 + cols}` (as `uint8_t`s); send
`FUNCTIONSET | displayfunction` as a two-nibble 4-bit command; set
`displaycontrol` to display-on only and send
`DISPLAYCONTROL | displaycontrol`; send `CLEARDISPLAY`; set `displaymode`
to left-entry with shift-decrement and send `ENTRYMODESET | displaymode`;
then issue `stop`.  (`push` reads only the backlight flag from the
globals, which `init` sets first, so the final state is used uniformly
for the event lists.) -/
theorem claim_C1_init (cols lines : Nat) (s : LCDState)
    (hcols : cols < 256) (hlines : lines < 256)
    (hdf : s.displayfunction = 0) :
    I2C_LCD_init cols lines s =
      (initFinalState cols lines,
       [BusEv.delayMs 40, BusEv.startWait I2C_LCD_startAddress] ++
       I2C_LCD_command8bit (initFinalState cols lines)
         (I2C_LCD_FUNCTIONSET ||| I2C_LCD_8BITMODE) ++
       [BusEv.delayUs 4500] ++
       I2C_LCD_command8bit (initFinalState cols lines)
         (I2C_LCD_FUNCTIONSET ||| I2C_LCD_8BITMODE) ++
       [BusEv.delayUs 150] ++
       I2C_LCD_command8bit (initFinalState cols lines)
         (I2C_LCD_FUNCTIONSET ||| I2C_LCD_8BITMODE) ++
       I2C_LCD_command8bit (initFinalState cols lines)
         (I2C_LCD_FUNCTIONSET ||| I2C_LCD_4BITMODE) ++
       I2C_LCD_command4bit (initFinalState cols lines)
         (I2C_LCD_FUNCTIONSET ||| (initFinalState cols lines).displayfunction) ++
       I2C_LCD_command4bit (initFinalState cols lines)
         (I2C_LCD_DISPLAYCONTROL ||| (initFinalState cols lines).displaycontrol) ++
       I2C_LCD_command4bit (initFinalState cols lines) I2C_LCD_CLEARDISPLAY ++
       I2C_LCD_command4bit (initFinalState cols lines)
         (I2C_LCD_ENTRYMODESET ||| (initFinalState cols lines).displaymode) ++
       [BusEv.stop]) := by
  have hc8 : u8 cols = cols := Nat.mod_eq_of_lt hcols
  have hl8 : u8 lines = lines := Nat.mod_eq_of_lt hlines
  by_cases h : lines > 1 <;>
    simp [I2C_LCD_init, initFinalState, I2C_LCD_setRowOffsets,
      I2C_LCD_command8bit, I2C_LCD_command4bit, I2C_LCD_push, I2C_LCD_ON,
      u8, hc8, hl8, hdf, h, Nat.mod_eq_of_lt hcols, Nat.mod_eq_of_lt hlines]

/-- **C3.** `setCursor(col, row)` clamps `col` and `row` from above to
`numcols`/`numlines` (values above the maximum are clamped down, not
wrapped and not rejected; in-range values pass through), and sends the
single command `SETDDRAMADDR | ((col-1) + row_offsets[row-1])` (a
`uint8_t`) inside one `startWait`/`stop` bracket; after `init` with 20
columns the row offsets are `{0x00, 0x40, 0x14, 0x54}`; and
`setCursor(99, 99)` on a 20x4 display behaves exactly as
`setCursor(20, 4)`. -/
theorem claim_C3_setCursor (s : LCDState) (col row col' row' lines : Nat)
    (s₀ : LCDState) (hwf : s.wf)
    (hc1 : 1 ≤ col) (hc2 : col ≤ s.numcols)
    (hr1 : 1 ≤ row) (hr2 : row ≤ s.numlines) (hnl : s.numlines ≤ 4)
    (hc' : s.numcols ≤ col') (hc'8 : col' < 256)
    (hr' : s.numlines ≤ row') (hr'8 : row' < 256) :
    (clampedCursorCol s col = col ∧ clampedCursorRow s row = row) ∧
    (clampedCursorCol s col' = s.numcols ∧ clampedCursorRow s row' = s.numlines) ∧
    I2C_LCD_setCursor s col row =
      [BusEv.startWait I2C_LCD_startAddress] ++
      I2C_LCD_command4bit s
        (I2C_LCD_SETDDRAMADDR ||| ((col - 1) + rowOffsetAt s ((row : Int) - 1))) ++
      [BusEv.stop] ∧
    cursorDDRAMAddr s col row =
      (I2C_LCD_SETDDRAMADDR ||| ((col - 1) + rowOffsetAt s ((row : Int) - 1))) % 256 ∧
    ((I2C_LCD_init 20 lines s₀).1.row_offsets0 = 0x00 ∧
     (I2C_LCD_init 20 lines s₀).1.row_offsets1 = 0x40 ∧
     (I2C_LCD_init 20 lines s₀).1.row_offsets2 = 0x14 ∧
     (I2C_LCD_init 20 lines s₀).1.row_offsets3 = 0x54) ∧
    (s.numcols = 20 → s.numlines = 4 →
      I2C_LCD_setCursor s 99 99 = I2C_LCD_setCursor s 20 4) := by
  obtain ⟨-, -, hcols, -⟩ : s.backlight < 256 ∧ s.numlines < 256 ∧
      s.numcols < 256 ∧ s.displayfunction < 256 := ⟨hwf.1, hwf.2.1, hwf.2.2.1, hwf.2.2.2.1⟩
  have hcc : clampedCursorCol s col = col := by
    simp only [clampedCursorCol, u8]
    rw [Nat.mod_eq_of_lt (lt_of_le_of_lt hc2 hcols)]
    split <;> omega
  have hcr : clampedCursorRow s row = row := by
    simp only [clampedCursorRow, u8]
    rw [Nat.mod_eq_of_lt (by omega : row < 256)]
    split <;> omega
  have hcc' : clampedCursorCol s col' = s.numcols := by
    simp only [clampedCursorCol, u8]
    rw [Nat.mod_eq_of_lt hc'8]
    split <;> omega
  have hcr' : clampedCursorRow s row' = s.numlines := by
    simp only [clampedCursorRow, u8]
    rw [Nat.mod_eq_of_lt hr'8]
    split <;> omega
  have haddr : cursorDDRAMAddr s col row =
      (I2C_LCD_SETDDRAMADDR ||| ((col - 1) + rowOffsetAt s ((row : Int) - 1))) % 256 := by
    unfold cursorDDRAMAddr cursorRowIndex
    rw [hcc, hcr, or_mod_256]
    norm_num [I2C_LCD_SETDDRAMADDR]
    congr 1
    omega
  refine ⟨⟨hcc, hcr⟩, ⟨hcc', hcr'⟩, ?_, haddr, ?_, ?_⟩
  · unfold I2C_LCD_setCursor I2C_LCD_setCursorWOI2C
    rw [haddr, command4bit_mod]
  · by_cases hl : lines % 256 > 1 <;>
      simp [I2C_LCD_init, I2C_LCD_setRowOffsets, u8, hl]
  · intro h20 h4
    simp only [I2C_LCD_setCursor, I2C_LCD_setCursorWOI2C, cursorDDRAMAddr,
      clampedCursorCol, clampedCursorRow, cursorRowIndex, u8, h20, h4]
    norm_num

/-- `init` stores its (truncated) `lines` argument into `numlines`
unconditionally — there is no validation against the 4-entry
`row_offsets` array. -/
theorem init_numlines (cols lines : Nat) (s : LCDState) :
    (I2C_LCD_init cols lines s).1.numlines = u8 lines := by
  by_cases hl : lines % 256 > 1 <;>
    simp [I2C_LCD_init, I2C_LCD_setRowOffsets, u8, hl]

/-- **C10 (amended).** In `setCursorWOI2C` (and hence `setCursor`) the
`row_offsets` access uses index `row - 1`, computed in promoted `int`
arithmetic, after `row` is clamped only from above to `numlines`: for
every call with `row ≥ 1` made after an `init` whose `lines` argument was
between 1 and 4, the index lies within the 4-element array; this
precondition is necessary — for `row = 0` the index is `-1`, one element
before the array, and after an `init` with `lines > 4` a row above 4
indexes past the array — and `init` performs no validation that
`lines ≤ 4`. -/
theorem claim_C10_amended (cols lines row lines2 row2 : Nat)
    (s t u : LCDState)
    (hl1 : 1 ≤ lines) (hl4 : lines ≤ 4)
    (hrow1 : 1 ≤ row) (hrow8 : row < 256)
    (hl2 : 4 < lines2) (hl28 : lines2 < 256)
    (hr2 : 4 < row2) (hr28 : row2 < 256) :
    0 ≤ cursorRowIndex (I2C_LCD_init cols lines s).1 row ∧
    cursorRowIndex (I2C_LCD_init cols lines s).1 row < 4 ∧
    cursorRowIndex t 0 = -1 ∧
    4 ≤ cursorRowIndex (I2C_LCD_init cols lines2 u).1 row2 ∧
    (I2C_LCD_init cols lines2 u).1.numlines = lines2 := by
  have ha := init_numlines cols lines s
  have hb := init_numlines cols lines2 u
  rw [show u8 lines = lines from Nat.mod_eq_of_lt (by omega)] at ha
  rw [show u8 lines2 = lines2 from Nat.mod_eq_of_lt hl28] at hb
  refine ⟨?_, ?_, ?_, ?_, hb⟩
  · simp only [cursorRowIndex, clampedCursorRow, ha, u8, Nat.mod_eq_of_lt hrow8]
    split <;> omega
  · simp only [cursorRowIndex, clampedCursorRow, ha, u8, Nat.mod_eq_of_lt hrow8]
    split <;> omega
  · simp only [cursorRowIndex, clampedCursorRow, u8, Nat.zero_mod]
    split <;> omega
  · simp only [cursorRowIndex, clampedCursorRow, hb, u8, Nat.mod_eq_of_lt hr28]
    split <;> omega

/-- **C10, counterexample to the claim as stated.**  The claim's
precondition "after an init whose lines argument was at most 4" admits
`lines = 0`, for which `row = 1` is clamped to `0` and indexes
`row_offsets[-1]`, outside the array; and for `row = 0` the index is the
promoted-`int` value `-1`, not an 8-bit wrap-around to `255`. -/
theorem claim_C10_counterexample :
    ((0 : Nat) ≤ 4 ∧ (1 : Nat) ≥ 1 ∧
      ¬ (0 ≤ cursorRowIndex (I2C_LCD_init 20 0 LCDState.startup).1 1 ∧
         cursorRowIndex (I2C_LCD_init 20 0 LCDState.startup).1 1 < 4)) ∧
    cursorRowIndex (I2C_LCD_init 20 4 LCDState.startup).1 0 = -1 ∧
    cursorRowIndex (I2C_LCD_init 20 4 LCDState.startup).1 0 ≠ 255 := by
  decide

/-- Witness for C1: `init(20, 4)` from the startup state. -/
theorem claim_C1_init_witness :
    I2C_LCD_init 20 4 LCDState.startup =
      (initFinalState 20 4,
       [BusEv.delayMs 40, BusEv.startWait I2C_LCD_startAddress] ++
       I2C_LCD_command8bit (initFinalState 20 4)
         (I2C_LCD_FUNCTIONSET ||| I2C_LCD_8BITMODE) ++
       [BusEv.delayUs 4500] ++
       I2C_LCD_command8bit (initFinalState 20 4)
         (I2C_LCD_FUNCTIONSET ||| I2C_LCD_8BITMODE) ++
       [BusEv.delayUs 150] ++
       I2C_LCD_command8bit (initFinalState 20 4)
         (I2C_LCD_FUNCTIONSET ||| I2C_LCD_8BITMODE) ++
       I2C_LCD_command8bit (initFinalState 20 4)
         (I2C_LCD_FUNCTIONSET ||| I2C_LCD_4BITMODE) ++
       I2C_LCD_command4bit (initFinalState 20 4)
         (I2C_LCD_FUNCTIONSET ||| (initFinalState 20 4).displayfunction) ++
       I2C_LCD_command4bit (initFinalState 20 4)
         (I2C_LCD_DISPLAYCONTROL ||| (initFinalState 20 4).displaycontrol) ++
       I2C_LCD_command4bit (initFinalState 20 4) I2C_LCD_CLEARDISPLAY ++
       I2C_LCD_command4bit (initFinalState 20 4)
         (I2C_LCD_ENTRYMODESET ||| (initFinalState 20 4).displaymode) ++
       [BusEv.stop]) :=
  claim_C1_init 20 4 LCDState.startup (by decide) (by decide) rfl

/-- Witness for C2: `push(0x53)` with the backlight flag on. -/
theorem claim_C2_push_witness :
    ∃ w1 w2,
      I2C_LCD_push (initFinalState 20 4) 0x53 =
        [BusEv.write w1, BusEv.write w2, BusEv.delayUs 100] ∧
      w1 &&& I2C_LCD_E = I2C_LCD_E ∧
      w2 &&& I2C_LCD_E = 0 ∧
      w1 &&& I2C_LCD_BL =
        (if (initFinalState 20 4).backlight ≠ 0 then I2C_LCD_BL else 0) ∧
      w2 &&& I2C_LCD_BL =
        (if (initFinalState 20 4).backlight ≠ 0 then I2C_LCD_BL else 0) ∧
      w1 &&& 0xF3 = 0x53 &&& 0xF3 ∧
      w2 &&& 0xF3 = 0x53 &&& 0xF3 ∧
      w2 = w1 &&& compl8 I2C_LCD_E :=
  claim_C2_push (initFinalState 20 4) 0x53 (by decide)

/-- Witness for C3: a 20x4 display, in-range `(5, 3)`, out-of-range
`(25, 7)`. -/
theorem claim_C3_setCursor_witness :
    (clampedCursorCol (initFinalState 20 4) 5 = 5 ∧
     clampedCursorRow (initFinalState 20 4) 3 = 3) ∧
    (clampedCursorCol (initFinalState 20 4) 25 = (initFinalState 20 4).numcols ∧
     clampedCursorRow (initFinalState 20 4) 7 = (initFinalState 20 4).numlines) ∧
    I2C_LCD_setCursor (initFinalState 20 4) 5 3 =
      [BusEv.startWait I2C_LCD_startAddress] ++
      I2C_LCD_command4bit (initFinalState 20 4)
        (I2C_LCD_SETDDRAMADDR |||
          ((5 - 1) + rowOffsetAt (initFinalState 20 4) ((3 : Int) - 1))) ++
      [BusEv.stop] ∧
    cursorDDRAMAddr (initFinalState 20 4) 5 3 =
      (I2C_LCD_SETDDRAMADDR |||
        ((5 - 1) + rowOffsetAt (initFinalState 20 4) ((3 : Int) - 1))) % 256 ∧
    ((I2C_LCD_init 20 2 LCDState.startup).1.row_offsets0 = 0x00 ∧
     (I2C_LCD_init 20 2 LCDState.startup).1.row_offsets1 = 0x40 ∧
     (I2C_LCD_init 20 2 LCDState.startup).1.row_offsets2 = 0x14 ∧
     (I2C_LCD_init 20 2 LCDState.startup).1.row_offsets3 = 0x54) ∧
    ((initFinalState 20 4).numcols = 20 → (initFinalState 20 4).numlines = 4 →
      I2C_LCD_setCursor (initFinalState 20 4) 99 99 =
        I2C_LCD_setCursor (initFinalState 20 4) 20 4) :=
  claim_C3_setCursor (initFinalState 20 4) 5 3 25 7 2 LCDState.startup
    (by decide) (by decide) (by decide) (by decide) (by decide) (by decide)
    (by decide) (by decide) (by decide) (by decide)

/-- Witness for C4: `command4bit(0xAB)`. -/
theorem claim_C4_command4bit_witness :
    I2C_LCD_command4bit LCDState.startup 0xAB =
      I2C_LCD_push LCDState.startup (0xAB &&& 0xF0) ++
      I2C_LCD_push LCDState.startup ((0xAB <<< 4) % 256) ∧
    I2C_LCD_command4bit LCDState.startup 0xAB =
      I2C_LCD_push LCDState.startup 0xA0 ++ I2C_LCD_push LCDState.startup 0xB0 :=
  claim_C4_command4bit LCDState.startup 0xAB (by decide)

/-- Witness for C6: `createChar(9, ...)` with the identity bitmap. -/
theorem claim_C6_createChar_witness :
    I2C_LCD_createChar LCDState.startup 9 (fun i => i) =
      [BusEv.startWait I2C_LCD_startAddress] ++
      I2C_LCD_command4bit LCDState.startup
        (I2C_LCD_SETCGRAMADDR ||| ((9 &&& 0x7) <<< 3)) ++
      (I2C_LCD_write LCDState.startup ((fun i => i) 0 &&& 0x1F) ++
       I2C_LCD_write LCDState.startup ((fun i => i) 1 &&& 0x1F) ++
       I2C_LCD_write LCDState.startup ((fun i => i) 2 &&& 0x1F) ++
       I2C_LCD_write LCDState.startup ((fun i => i) 3 &&& 0x1F) ++
       I2C_LCD_write LCDState.startup ((fun i => i) 4 &&& 0x1F) ++
       I2C_LCD_write LCDState.startup ((fun i => i) 5 &&& 0x1F) ++
       I2C_LCD_write LCDState.startup ((fun i => i) 6 &&& 0x1F) ++
       I2C_LCD_write LCDState.startup ((fun i => i) 7 &&& 0x1F)) ++
      [BusEv.stop] ∧
    I2C_LCD_createChar LCDState.startup 9 (fun i => i) =
      I2C_LCD_createChar LCDState.startup 1 (fun i => i) :=
  claim_C6_createChar LCDState.startup 9 (fun i => i) (by decide)

/-- Witness for C10 (amended): `init(20, 4)` then row 2 is in bounds;
row 0 gives index `-1`; `init(20, 6)` then row 5 is out of bounds. -/
theorem claim_C10_amended_witness :
    0 ≤ cursorRowIndex (I2C_LCD_init 20 4 LCDState.startup).1 2 ∧
    cursorRowIndex (I2C_LCD_init 20 4 LCDState.startup).1 2 < 4 ∧
    cursorRowIndex LCDState.startup 0 = -1 ∧
    4 ≤ cursorRowIndex (I2C_LCD_init 20 6 LCDState.startup).1 5 ∧
    (I2C_LCD_init 20 6 LCDState.startup).1.numlines = 6 :=
  claim_C10_amended 20 4 2 6 5 LCDState.startup LCDState.startup LCDState.startup
    (by decide) (by decide) (by decide) (by decide) (by decide) (by decide)
    (by decide) (by decide)

/-- Witness for C5 (amended): `print` of the bytes of `"Hi"` with the
terminator at index 2. -/
theorem claim_C5_print_witness :
    I2C_LCD_print LCDState.startup [72, 105, 0] =
      some ([BusEv.startWait I2C_LCD_startAddress] ++
        (([72, 105, 0] : List Nat).takeWhile (fun c => c ≠ 0)).flatMap
          (I2C_LCD_write LCDState.startup) ++
        [BusEv.stop]) ∧
    I2C_LCD_print LCDState.startup [0] =
      some [BusEv.startWait I2C_LCD_startAddress, BusEv.stop] :=
  claim_C5_print LCDState.startup [72, 105, 0] ⟨2, by decide, by decide⟩
